import Mathlib

/-!
Shallow embedding of the wobble spring-physics library (src/index.ts) and
proofs about its specification claims.

The embedding models JS numbers as real numbers, wall-clock timestamps as
explicit real parameters, listener callbacks as natural-number references,
and the requestAnimationFrame handle as a natural number (0 = none), with
fresh handles supplied by the caller (the scheduler is an external
collaborator).  Listener dispatch is recorded as an event trace; listener
bodies are opaque and cannot mutate the spring, so the re-entrancy
re-checks in the source are vacuously modelled.
-/

namespace Wobble

/-- Full spring configuration, mirroring the SpringConfig interface of
src/index.ts (all ten fields). -/
structure SpringConfig where
  fromValue : ℝ
  toValue : ℝ
  stiffness : ℝ
  damping : ℝ
  mass : ℝ
  initialVelocity : ℝ
  allowsOverdamping : Bool
  overshootClamping : Bool
  restVelocityThreshold : ℝ
  restDisplacementThreshold : ℝ

/-- Partial configuration: every field optional, mirroring
PartialSpringConfig = Partial of SpringConfig. -/
structure PartialSpringConfig where
  fromValue : Option ℝ := none
  toValue : Option ℝ := none
  stiffness : Option ℝ := none
  damping : Option ℝ := none
  mass : Option ℝ := none
  initialVelocity : Option ℝ := none
  allowsOverdamping : Option Bool := none
  overshootClamping : Option Bool := none
  restVelocityThreshold : Option ℝ := none
  restDisplacementThreshold : Option ℝ := none

/-- Mirrors withDefault from src/utils.ts: take the supplied value when
present, the default otherwise. -/
def withDefault {α : Type} (maybeValue : Option α) (defaultValue : α) : α :=
  maybeValue.getD defaultValue

/-- Mirrors the constructor defaulting of the Spring class: every omitted
field takes its documented default. -/
def initialConfig (c : PartialSpringConfig) : SpringConfig :=
  { fromValue := withDefault c.fromValue 0
    toValue := withDefault c.toValue 1
    stiffness := withDefault c.stiffness 100
    damping := withDefault c.damping 10
    mass := withDefault c.mass 1
    initialVelocity := withDefault c.initialVelocity 0
    allowsOverdamping := withDefault c.allowsOverdamping false
    overshootClamping := withDefault c.overshootClamping false
    restVelocityThreshold := withDefault c.restVelocityThreshold 0.001
    restDisplacementThreshold := withDefault c.restDisplacementThreshold 0.001 }

/-- Damping ratio as computed in _advanceSpringToTime:
zeta = c / (2 * sqrt (k * m)). -/
noncomputable def zetaRaw (cfg : SpringConfig) : ℝ :=
  cfg.damping / (2 * Real.sqrt (cfg.stiffness * cfg.mass))

/-- Undamped angular frequency as computed in _advanceSpringToTime:
omega0 = sqrt (k / m) / 1000 (rad per ms). -/
noncomputable def omega0 (cfg : SpringConfig) : ℝ :=
  Real.sqrt (cfg.stiffness / cfg.mass) / 1000

/-- Mirrors omega1 = omega0 * sqrt (1 - zeta^2); computed from the raw
(unclamped) damping ratio, exactly as in the source. -/
noncomputable def omega1 (cfg : SpringConfig) : ℝ :=
  omega0 cfg * Real.sqrt (1 - zetaRaw cfg * zetaRaw cfg)

/-- Mirrors omega2 = omega0 * sqrt (zeta^2 - 1); computed from the raw
(unclamped) damping ratio, exactly as in the source. -/
noncomputable def omega2 (cfg : SpringConfig) : ℝ :=
  omega0 cfg * Real.sqrt (zetaRaw cfg * zetaRaw cfg - 1)

/-- Initial displacement x0 = toValue - fromValue. -/
def x0 (cfg : SpringConfig) : ℝ := cfg.toValue - cfg.fromValue

/-- Negated configured initial velocity, v0 = -initialVelocity. -/
def v0 (cfg : SpringConfig) : ℝ := -cfg.initialVelocity

/-- Damping ratio after the overdamping clamp of _advanceSpringToTime:
if zeta > 1 and allowsOverdamping is false then zeta is forced to 1. -/
noncomputable def zetaClamped (cfg : SpringConfig) : ℝ :=
  if zetaRaw cfg > 1 ∧ cfg.allowsOverdamping = false then 1 else zetaRaw cfg

/-- Displacement (the local variable named oscillation) computed by the
branch of _advanceSpringToTime selected by the clamped damping ratio,
as a function of spring-time t. -/
noncomputable def springOscillation (cfg : SpringConfig) (t : ℝ) : ℝ :=
  if zetaClamped cfg < 1 then
    cfg.toValue -
      Real.exp (-zetaClamped cfg * omega0 cfg * t) *
        ((v0 cfg + zetaClamped cfg * omega0 cfg * x0 cfg) / omega1 cfg *
            Real.sin (omega1 cfg * t) +
          x0 cfg * Real.cos (omega1 cfg * t))
  else if zetaClamped cfg = 1 then
    cfg.toValue -
      Real.exp (-omega0 cfg * t) *
        (x0 cfg + (v0 cfg + omega0 cfg * x0 cfg) * t)
  else
    cfg.toValue -
      Real.exp (-zetaClamped cfg * omega0 cfg * t) *
        ((v0 cfg + zetaClamped cfg * omega0 cfg * x0 cfg) *
            Real.sinh (omega2 cfg * t) +
          omega2 cfg * x0 cfg * Real.cosh (omega2 cfg * t)) /
        omega2 cfg

/-- Velocity computed by the branch of _advanceSpringToTime selected by the
clamped damping ratio, as a function of spring-time t; transcribed
term-for-term from the source. -/
noncomputable def springVelocity (cfg : SpringConfig) (t : ℝ) : ℝ :=
  if zetaClamped cfg < 1 then
    zetaClamped cfg * omega0 cfg * Real.exp (-zetaClamped cfg * omega0 cfg * t) *
        (Real.sin (omega1 cfg * t) *
            (v0 cfg + zetaClamped cfg * omega0 cfg * x0 cfg) / omega1 cfg +
          x0 cfg * Real.cos (omega1 cfg * t)) -
      Real.exp (-zetaClamped cfg * omega0 cfg * t) *
        (Real.cos (omega1 cfg * t) *
            (v0 cfg + zetaClamped cfg * omega0 cfg * x0 cfg) -
          omega1 cfg * x0 cfg * Real.sin (omega1 cfg * t))
  else if zetaClamped cfg = 1 then
    Real.exp (-omega0 cfg * t) *
      (v0 cfg * (t * omega0 cfg - 1) + t * x0 cfg * (omega0 cfg * omega0 cfg))
  else
    Real.exp (-zetaClamped cfg * omega0 cfg * t) * zetaClamped cfg * omega0 cfg *
        (Real.sinh (omega2 cfg * t) *
            (v0 cfg + zetaClamped cfg * omega0 cfg * x0 cfg) +
          x0 cfg * omega2 cfg * Real.cosh (omega2 cfg * t)) /
        omega2 cfg -
      Real.exp (-zetaClamped cfg * omega0 cfg * t) *
        (omega2 cfg * Real.cosh (omega2 cfg * t) *
            (v0 cfg + zetaClamped cfg * omega0 cfg * x0 cfg) +
          omega2 cfg * omega2 cfg * x0 cfg * Real.sinh (omega2 cfg * t)) /
        omega2 cfg

/-- Damping ratio with clamping as the specification words it (section 4.1):
zeta = c / (2 * sqrt (k * m)), clamped to 1 when above 1 without
allowsOverdamping.  Stated independently of the code-side definitions for
the refinement comparison of claim C1. -/
noncomputable def specZeta (cfg : SpringConfig) : ℝ :=
  if cfg.damping / (2 * Real.sqrt (cfg.stiffness * cfg.mass)) > 1 ∧
      cfg.allowsOverdamping = false then 1
  else cfg.damping / (2 * Real.sqrt (cfg.stiffness * cfg.mass))

/-- Undamped angular frequency as the specification words it:
omega0 = sqrt (k / m) / 1000. -/
noncomputable def specOmega0 (cfg : SpringConfig) : ℝ :=
  Real.sqrt (cfg.stiffness / cfg.mass) / 1000

/-- Specification-side omega1 = omega0 * sqrt (1 - zeta^2), built from the
CLAMPED damping ratio (the spec defines the regimes in terms of the clamped
zeta). -/
noncomputable def specOmega1 (cfg : SpringConfig) : ℝ :=
  specOmega0 cfg * Real.sqrt (1 - specZeta cfg * specZeta cfg)

/-- Specification-side omega2 = omega0 * sqrt (zeta^2 - 1), built from the
CLAMPED damping ratio. -/
noncomputable def specOmega2 (cfg : SpringConfig) : ℝ :=
  specOmega0 cfg * Real.sqrt (specZeta cfg * specZeta cfg - 1)

/-- Displacement exactly as the specification section 4.1 words it: the
three regime formulas selected by the clamped damping ratio. -/
noncomputable def specDisplacement (cfg : SpringConfig) (t : ℝ) : ℝ :=
  if specZeta cfg < 1 then
    cfg.toValue -
      Real.exp (-specZeta cfg * specOmega0 cfg * t) *
        ((v0 cfg + specZeta cfg * specOmega0 cfg * x0 cfg) / specOmega1 cfg *
            Real.sin (specOmega1 cfg * t) +
          x0 cfg * Real.cos (specOmega1 cfg * t))
  else if specZeta cfg = 1 then
    cfg.toValue -
      Real.exp (-specOmega0 cfg * t) *
        (x0 cfg + (v0 cfg + specOmega0 cfg * x0 cfg) * t)
  else
    cfg.toValue -
      Real.exp (-specZeta cfg * specOmega0 cfg * t) *
        ((v0 cfg + specZeta cfg * specOmega0 cfg * x0 cfg) *
            Real.sinh (specOmega2 cfg * t) +
          specOmega2 cfg * x0 cfg * Real.cosh (specOmega2 cfg * t)) /
        specOmega2 cfg

/-- Specification-side zeta agrees definitionally with the code-side
clamped zeta. -/
theorem specZeta_eq (cfg : SpringConfig) : specZeta cfg = zetaClamped cfg := rfl

/-- Specification-side omega0 agrees definitionally with the code side. -/
theorem specOmega0_eq (cfg : SpringConfig) : specOmega0 cfg = omega0 cfg := rfl

/-- When the clamped damping ratio is below 1 the clamp did not fire, so the
clamped and raw ratios coincide. -/
theorem zetaClamped_eq_raw_of_lt (cfg : SpringConfig)
    (h : zetaClamped cfg < 1) : zetaClamped cfg = zetaRaw cfg := by
  unfold zetaClamped at h ⊢
  by_cases hc : zetaRaw cfg > 1 ∧ cfg.allowsOverdamping = false
  · rw [if_pos hc] at h; exact absurd h (lt_irrefl 1)
  · rw [if_neg hc]

/-- When the clamped damping ratio is above 1 the clamp did not fire, so the
clamped and raw ratios coincide. -/
theorem zetaClamped_eq_raw_of_gt (cfg : SpringConfig)
    (h : 1 < zetaClamped cfg) : zetaClamped cfg = zetaRaw cfg := by
  unfold zetaClamped at h ⊢
  by_cases hc : zetaRaw cfg > 1 ∧ cfg.allowsOverdamping = false
  · rw [if_pos hc] at h; exact absurd h (lt_irrefl 1)
  · rw [if_neg hc]

/-- In the underdamped regime the specification-side omega1 coincides with
the code-side omega1 (the code computes it from the unclamped ratio, but
below 1 they agree). -/
theorem specOmega1_eq (cfg : SpringConfig) (h : zetaClamped cfg < 1) :
    specOmega1 cfg = omega1 cfg := by
  unfold specOmega1 omega1
  rw [specOmega0_eq, specZeta_eq, zetaClamped_eq_raw_of_lt cfg h]

/-- In the overdamped regime the specification-side omega2 coincides with
the code-side omega2. -/
theorem specOmega2_eq (cfg : SpringConfig) (h : 1 < zetaClamped cfg) :
    specOmega2 cfg = omega2 cfg := by
  unfold specOmega2 omega2
  rw [specOmega0_eq, specZeta_eq, zetaClamped_eq_raw_of_gt cfg h]

/-- C1: for every spring-time t at least 0 and configuration with positive
mass, stiffness and damping, the displacement computed by the tick
evaluation equals the specification's piecewise form: damping ratio
zeta = c / (2 * sqrt (k * m)), omega0 = sqrt (k / m) / 1000, zeta clamped
to 1 when above 1 without allowsOverdamping, and the displacement given by
exactly the regime formula (underdamped, critically damped, overdamped)
selected by the clamped zeta. -/
theorem tick_displacement_follows_spec_regimes (cfg : SpringConfig) (t : ℝ)
    (ht : 0 ≤ t) (hm : 0 < cfg.mass) (hk : 0 < cfg.stiffness)
    (hc : 0 < cfg.damping) :
    springOscillation cfg t = specDisplacement cfg t := by
  unfold springOscillation specDisplacement
  rw [specZeta_eq, specOmega0_eq]
  rcases lt_trichotomy (zetaClamped cfg) 1 with h | h | h
  · rw [if_pos h, if_pos h, specOmega1_eq cfg h]
  · rw [h, if_neg (lt_irrefl (1 : ℝ)), if_neg (lt_irrefl (1 : ℝ)), if_pos rfl, if_pos rfl]
  · rw [if_neg (not_lt_of_gt h), if_neg (not_lt_of_gt h),
      if_neg (ne_of_gt h), if_neg (ne_of_gt h), specOmega2_eq cfg h]

/-- Witness for C1 at the default configuration (stiffness 100, damping 10,
mass 1, hence zeta = 1/2) and t = 1. -/
theorem tick_displacement_follows_spec_regimes_witness :
    springOscillation (initialConfig {}) 1 = specDisplacement (initialConfig {}) 1 :=
  tick_displacement_follows_spec_regimes (initialConfig {}) 1 (by norm_num)
    (by norm_num [initialConfig, withDefault])
    (by norm_num [initialConfig, withDefault])
    (by norm_num [initialConfig, withDefault])

/-- Positivity of omega0 for valid physical parameters. -/
theorem omega0_pos (cfg : SpringConfig) (hm : 0 < cfg.mass)
    (hk : 0 < cfg.stiffness) : 0 < omega0 cfg := by
  unfold omega0
  have h : 0 < cfg.stiffness / cfg.mass := div_pos hk hm
  have := Real.sqrt_pos.mpr h
  linarith

/-- Positivity of the raw damping ratio for valid physical parameters. -/
theorem zetaRaw_pos (cfg : SpringConfig) (hm : 0 < cfg.mass)
    (hk : 0 < cfg.stiffness) (hc : 0 < cfg.damping) : 0 < zetaRaw cfg := by
  unfold zetaRaw
  have h : 0 < cfg.stiffness * cfg.mass := mul_pos hk hm
  have := Real.sqrt_pos.mpr h
  positivity

/-- Positivity of the clamped damping ratio. -/
theorem zetaClamped_pos (cfg : SpringConfig) (hm : 0 < cfg.mass)
    (hk : 0 < cfg.stiffness) (hc : 0 < cfg.damping) : 0 < zetaClamped cfg := by
  unfold zetaClamped
  by_cases h : zetaRaw cfg > 1 ∧ cfg.allowsOverdamping = false
  · rw [if_pos h]; norm_num
  · rw [if_neg h]; exact zetaRaw_pos cfg hm hk hc

/-- In the underdamped regime omega1 is strictly positive. -/
theorem omega1_pos (cfg : SpringConfig) (hm : 0 < cfg.mass)
    (hk : 0 < cfg.stiffness) (hc : 0 < cfg.damping)
    (h : zetaClamped cfg < 1) : 0 < omega1 cfg := by
  have hz := zetaClamped_eq_raw_of_lt cfg h
  have hzpos : 0 < zetaRaw cfg := zetaRaw_pos cfg hm hk hc
  have h1 : zetaRaw cfg < 1 := hz ▸ h
  unfold omega1
  have hsq : 0 < 1 - zetaRaw cfg * zetaRaw cfg := by nlinarith
  exact mul_pos (omega0_pos cfg hm hk) (Real.sqrt_pos.mpr hsq)

/-- In the overdamped regime omega2 is strictly positive. -/
theorem omega2_pos (cfg : SpringConfig) (hm : 0 < cfg.mass)
    (hk : 0 < cfg.stiffness) (hc : 0 < cfg.damping)
    (h : 1 < zetaClamped cfg) : 0 < omega2 cfg := by
  have hz := zetaClamped_eq_raw_of_gt cfg h
  have h1 : 1 < zetaRaw cfg := hz ▸ h
  unfold omega2
  have hsq : 0 < zetaRaw cfg * zetaRaw cfg - 1 := by nlinarith
  exact mul_pos (omega0_pos cfg hm hk) (Real.sqrt_pos.mpr hsq)

/-- C2: in every damping regime and for valid physical parameters, the
velocity computed by the tick evaluation is the analytic time-derivative of
the displacement computed by the same branch; in particular in the
critically damped branch the velocity is
exp (-omega0 * t) * (v0 * (t * omega0 - 1) + t * x0 * omega0 ^ 2). -/
theorem tick_velocity_is_displacement_derivative (cfg : SpringConfig) (t : ℝ)
    (hm : 0 < cfg.mass) (hk : 0 < cfg.stiffness) (hc : 0 < cfg.damping) :
    HasDerivAt (springOscillation cfg) (springVelocity cfg t) t ∧
      (zetaClamped cfg = 1 → springVelocity cfg t =
        Real.exp (-omega0 cfg * t) *
          (v0 cfg * (t * omega0 cfg - 1) +
            t * x0 cfg * (omega0 cfg * omega0 cfg))) := by
  constructor
  · rcases lt_trichotomy (zetaClamped cfg) 1 with h | h | h
    · -- underdamped branch
      have hw1 : omega1 cfg ≠ 0 := ne_of_gt (omega1_pos cfg hm hk hc h)
      have hfun : springOscillation cfg = fun u =>
          cfg.toValue - Real.exp (-zetaClamped cfg * omega0 cfg * u) *
            ((v0 cfg + zetaClamped cfg * omega0 cfg * x0 cfg) / omega1 cfg *
                Real.sin (omega1 cfg * u) +
              x0 cfg * Real.cos (omega1 cfg * u)) := by
        funext u; unfold springOscillation; rw [if_pos h]
      rw [hfun]
      have hE := ((hasDerivAt_id t).const_mul (-zetaClamped cfg * omega0 cfg)).exp
      have hsin := ((hasDerivAt_id t).const_mul (omega1 cfg)).sin
      have hcos := ((hasDerivAt_id t).const_mul (omega1 cfg)).cos
      have hG := (hsin.const_mul
          ((v0 cfg + zetaClamped cfg * omega0 cfg * x0 cfg) / omega1 cfg)).add
        (hcos.const_mul (x0 cfg))
      have hF := (hE.mul hG).const_sub cfg.toValue
      convert hF using 1
      unfold springVelocity
      rw [if_pos h]
      field_simp
      ring
    · -- critically damped branch
      have hfun : springOscillation cfg = fun u =>
          cfg.toValue - Real.exp (-omega0 cfg * u) *
            (x0 cfg + (v0 cfg + omega0 cfg * x0 cfg) * u) := by
        funext u; unfold springOscillation
        rw [h, if_neg (lt_irrefl (1 : ℝ)), if_pos rfl]
      rw [hfun]
      have hE := ((hasDerivAt_id t).const_mul (-omega0 cfg)).exp
      have hG := ((hasDerivAt_id t).const_mul
          (v0 cfg + omega0 cfg * x0 cfg)).const_add (x0 cfg)
      have hF := (hE.mul hG).const_sub cfg.toValue
      convert hF using 1
      unfold springVelocity
      rw [h, if_neg (lt_irrefl (1 : ℝ)), if_pos rfl]
      simp only [id_eq]
      ring
    · -- overdamped branch
      have hfun : springOscillation cfg = fun u =>
          cfg.toValue - Real.exp (-zetaClamped cfg * omega0 cfg * u) *
            ((v0 cfg + zetaClamped cfg * omega0 cfg * x0 cfg) *
                Real.sinh (omega2 cfg * u) +
              omega2 cfg * x0 cfg * Real.cosh (omega2 cfg * u)) /
            omega2 cfg := by
        funext u; unfold springOscillation
        rw [if_neg (asymm h), if_neg (ne_of_gt h)]
      rw [hfun]
      have hE := ((hasDerivAt_id t).const_mul (-zetaClamped cfg * omega0 cfg)).exp
      have hsinh := ((hasDerivAt_id t).const_mul (omega2 cfg)).sinh
      have hcosh := ((hasDerivAt_id t).const_mul (omega2 cfg)).cosh
      have hH := (hsinh.const_mul
          (v0 cfg + zetaClamped cfg * omega0 cfg * x0 cfg)).add
        (hcosh.const_mul (omega2 cfg * x0 cfg))
      have hF := ((hE.mul hH).div_const (omega2 cfg)).const_sub cfg.toValue
      convert hF using 1
      unfold springVelocity
      rw [if_neg (asymm h), if_neg (ne_of_gt h)]
      simp only [id_eq]
      ring
  · intro h
    unfold springVelocity
    rw [h, if_neg (lt_irrefl (1 : ℝ)), if_pos rfl]

/-- Witness for C2 at the default configuration and t = 0. -/
theorem tick_velocity_is_displacement_derivative_witness :
    HasDerivAt (springOscillation (initialConfig {}))
      (springVelocity (initialConfig {}) 0) 0 ∧
      (zetaClamped (initialConfig {}) = 1 →
        springVelocity (initialConfig {}) 0 =
          Real.exp (-omega0 (initialConfig {}) * 0) *
            (v0 (initialConfig {}) * (0 * omega0 (initialConfig {}) - 1) +
              0 * x0 (initialConfig {}) *
                (omega0 (initialConfig {}) * omega0 (initialConfig {})))) :=
  tick_velocity_is_displacement_derivative (initialConfig {}) 0
    (by norm_num [initialConfig, withDefault])
    (by norm_num [initialConfig, withDefault])
    (by norm_num [initialConfig, withDefault])

open scoped Classical

/-- Simulation state owned by one Spring instance (the underscore fields of
the class).  The requestAnimationFrame handle is modelled as a natural
number, 0 meaning none (0 is falsy in the source). -/
structure SpringState where
  config : SpringConfig
  currentAnimationStep : ℕ
  currentTime : ℝ
  springTime : ℝ
  currentValue : ℝ
  currentVelocity : ℝ
  isAnimating : Bool

/-- Mirrors the Spring constructor: defaulted config, zeroed bookkeeping,
currentValue seeded from fromValue and currentVelocity from
initialVelocity.  No validation happens at construction. -/
def mkSpring (c : PartialSpringConfig) : SpringState :=
  { config := initialConfig c
    currentAnimationStep := 0
    currentTime := 0
    springTime := 0
    currentValue := (initialConfig c).fromValue
    currentVelocity := (initialConfig c).initialVelocity
    isAnimating := false }

/-- Error raised by the three invariant calls of _advanceSpringToTime
(mass, stiffness, damping must each be greater than 0). -/
inductive SpringError where
  | invalidMass
  | invalidStiffness
  | invalidDamping
deriving DecidableEq

/-- Listener dispatches observable by a host; update events record the
currentValue and currentVelocity the listeners observe. -/
inductive SpringEvent where
  | start
  | update (value velocity : ℝ)
  | stop

/-- Recognizer for update events. -/
def SpringEvent.isUpdate : SpringEvent → Bool
  | SpringEvent.update _ _ => true
  | _ => false

/-- Number of onUpdate dispatches in an event trace. -/
def countUpdates (evs : List SpringEvent) : ℕ :=
  (evs.filter SpringEvent.isUpdate).length

/-- Mirrors Spring.MAX_DELTA_TIME_MS = 1 / 60 * 1000 * 4. -/
noncomputable def MAX_DELTA_TIME_MS : ℝ := 1 / 60 * 1000 * 4

/-- Mirrors the deltaTime clamp at the top of _advanceSpringToTime. -/
noncomputable def clampDelta (deltaTime : ℝ) : ℝ :=
  if deltaTime > MAX_DELTA_TIME_MS then MAX_DELTA_TIME_MS else deltaTime

/-- Mirrors the private _reset method: currentTime is seeded with the
wall-clock time of the call, springTime zeroed, currentValue and
currentVelocity re-seeded from the config. -/
def reset (s : SpringState) (now : ℝ) : SpringState :=
  { s with currentTime := now
           springTime := 0
           currentValue := s.config.fromValue
           currentVelocity := s.config.initialVelocity }

/-- Mirrors the stop method: no-op when not animating; otherwise clear
isAnimating, fire the onStop listeners and cancel any pending tick. -/
noncomputable def stop (s : SpringState) : SpringState × List SpringEvent :=
  if s.isAnimating = false then (s, [])
  else
    let s1 := { s with isAnimating := false }
    let s2 := if s1.currentAnimationStep ≠ 0 then
        { s1 with currentAnimationStep := 0 } else s1
    (s2, [SpringEvent.stop])

/-- Mirrors the start method: when fromValue differs from toValue or the
initial velocity is nonzero, reset and mark animating; only when no tick is
scheduled, fire onStart and schedule one (the scheduler hands back
newHandle). -/
noncomputable def start (s : SpringState) (now : ℝ) (newHandle : ℕ) :
    SpringState × List SpringEvent :=
  if s.config.fromValue ≠ s.config.toValue ∨ s.config.initialVelocity ≠ 0 then
    let s1 := { reset s now with isAnimating := true }
    if s1.currentAnimationStep = 0 then
      ({ s1 with currentAnimationStep := newHandle }, [SpringEvent.start])
    else (s1, [])
  else (s, [])

/-- Mirrors the private _isSpringOvershooting method. -/
def isSpringOvershooting (s : SpringState) : Prop :=
  s.config.overshootClamping = true ∧ s.config.stiffness ≠ 0 ∧
    (if s.config.fromValue < s.config.toValue
     then s.currentValue > s.config.toValue
     else s.currentValue < s.config.toValue)

/-- Mirrors the private _isSpringAtRest method: the displacement test is
guarded by stiffness being nonzero, and both the displacement and velocity
tests must pass. -/
def isSpringAtRest (s : SpringState) : Prop :=
  (s.config.stiffness ≠ 0 ∧
    |s.config.toValue - s.currentValue| ≤ s.config.restDisplacementThreshold) ∧
  |s.currentVelocity| ≤ s.config.restVelocityThreshold

/-- Termination tail of _advanceSpringToTime after the onUpdate dispatch:
when overshooting or at rest, snap to the target if stiffness is nonzero
(with one extra onUpdate dispatch) and stop. -/
noncomputable def tickResult (s2 : SpringState) (kk oscillation velocity : ℝ) :
    SpringState × List SpringEvent :=
  if isSpringOvershooting s2 ∨ isSpringAtRest s2 then
    if kk ≠ 0 then
      let s3 := { s2 with currentValue := s2.config.toValue, currentVelocity := 0 }
      let r := stop s3
      (r.1, SpringEvent.update oscillation velocity ::
        SpringEvent.update s2.config.toValue 0 :: r.2)
    else
      let r := stop s2
      (r.1, SpringEvent.update oscillation velocity :: r.2)
  else (s2, [SpringEvent.update oscillation velocity])

/-- Mirrors the private _advanceSpringToTime method.  Returns the state
after the call, the error raised by the invariant checks (if any; the
springTime mutation precedes the checks exactly as in the source), and the
trace of listener dispatches.  Listeners are opaque and cannot mutate the
spring, so the re-entrancy re-check of _isAnimating after the onUpdate
dispatch is vacuous here. -/
noncomputable def advanceSpringToTime (s : SpringState) (timestamp : ℝ)
    (shouldNotifyListeners : Bool) :
    SpringState × Option SpringError × List SpringEvent :=
  if s.isAnimating = false then (s, none, [])
  else
    let s1 := { s with
      springTime := s.springTime + clampDelta (timestamp - s.currentTime) }
    if ¬s.config.mass > 0 then (s1, some SpringError.invalidMass, [])
    else if ¬s.config.stiffness > 0 then (s1, some SpringError.invalidStiffness, [])
    else if ¬s.config.damping > 0 then (s1, some SpringError.invalidDamping, [])
    else
      let oscillation := springOscillation s.config s1.springTime
      let velocity := springVelocity s.config s1.springTime
      let s2 := { s1 with currentTime := timestamp
                          currentValue := oscillation
                          currentVelocity := velocity }
      if shouldNotifyListeners = false then (s2, none, [])
      else
        let r := tickResult s2 s.config.stiffness oscillation velocity
        (r.1, none, r.2)

/-- Mirrors the private _step method: advance with notifications and, when
still animating afterwards, schedule the next tick (fresh handle supplied
by the scheduler); an invariant error propagates and skips scheduling. -/
noncomputable def step (s : SpringState) (timestamp : ℝ) (newHandle : ℕ) :
    SpringState × Option SpringError × List SpringEvent :=
  match advanceSpringToTime s timestamp true with
  | (s1, some e, evs) => (s1, some e, evs)
  | (s1, none, evs) =>
    if s1.isAnimating = true then
      ({ s1 with currentAnimationStep := newHandle }, none, evs)
    else (s1, none, evs)

/-- Runs a sequence of ticks through _step; none when a tick raised. -/
noncomputable def runTicks : SpringState → List ℝ → Option SpringState
  | s, [] => some s
  | s, ts :: rest =>
    match step s ts 1 with
    | (s1, none, _) => runTicks s1 rest
    | (_, some _, _) => none

/-- Mirrors the field overlay loop of updateConfig: supplied fields win,
everything else is kept. -/
def applyPartial (cfg : SpringConfig) (p : PartialSpringConfig) : SpringConfig :=
  { fromValue := withDefault p.fromValue cfg.fromValue
    toValue := withDefault p.toValue cfg.toValue
    stiffness := withDefault p.stiffness cfg.stiffness
    damping := withDefault p.damping cfg.damping
    mass := withDefault p.mass cfg.mass
    initialVelocity := withDefault p.initialVelocity cfg.initialVelocity
    allowsOverdamping := withDefault p.allowsOverdamping cfg.allowsOverdamping
    overshootClamping := withDefault p.overshootClamping cfg.overshootClamping
    restVelocityThreshold :=
      withDefault p.restVelocityThreshold cfg.restVelocityThreshold
    restDisplacementThreshold :=
      withDefault p.restDisplacementThreshold cfg.restDisplacementThreshold }

/-- Mirrors the updateConfig method: silently advance the trajectory to
now, re-baseline fromValue and initialVelocity from the advanced value and
velocity, overlay the supplied fields, then reset.  An invariant error
inside the silent advance propagates. -/
noncomputable def updateConfig (s : SpringState) (p : PartialSpringConfig)
    (now : ℝ) : SpringState × Option SpringError × List SpringEvent :=
  match advanceSpringToTime s now false with
  | (s1, some e, evs) => (s1, some e, evs)
  | (s1, none, _) =>
    let cfg1 := { s1.config with fromValue := s1.currentValue
                                 initialVelocity := s1.currentVelocity }
    let s2 := reset { s1 with config := applyPartial cfg1 p } now
    (s2, none, [])

/-- Folds a batch of updateConfig calls (all sharing one un-ticked
interval), collecting every listener dispatch they produce; none when one
of them raised. -/
noncomputable def applyConfigs :
    SpringState → List PartialSpringConfig → ℝ →
      Option (SpringState × List SpringEvent)
  | s, [], _ => some (s, [])
  | s, p :: ps, now =>
    match updateConfig s p now with
    | (s1, none, evs) =>
      match applyConfigs s1 ps now with
      | some (sf, evsf) => some (sf, evs ++ evsf)
      | none => none
    | (_, some _, _) => none

/-- Registered listener entry: the JS object literal with exactly one of
the three keys set; callbacks are identified by reference, modelled as
natural numbers. -/
structure SpringListener where
  onStart : Option ℕ := none
  onUpdate : Option ℕ := none
  onStop : Option ℕ := none
deriving DecidableEq

/-- Mirrors the onStart registration method. -/
def addOnStart (ls : List SpringListener) (fn : ℕ) : List SpringListener :=
  ls ++ [{ onStart := some fn }]

/-- Mirrors the onUpdate registration method. -/
def addOnUpdate (ls : List SpringListener) (fn : ℕ) : List SpringListener :=
  ls ++ [{ onUpdate := some fn }]

/-- Mirrors the onStop registration method. -/
def addOnStop (ls : List SpringListener) (fn : ℕ) : List SpringListener :=
  ls ++ [{ onStop := some fn }]

/-- Mirrors the Object.values(listener).indexOf(listenerFn) check of
removeListener: whether the entry wraps the callback under any key. -/
def listenerMatches (l : SpringListener) (fn : ℕ) : Bool :=
  l.onStart == some fn || l.onUpdate == some fn || l.onStop == some fn

/-- Mirrors removeListener: a reduce over the registry that keeps exactly
the entries not wrapping the callback. -/
def removeListener (ls : List SpringListener) (fn : ℕ) : List SpringListener :=
  ls.foldl
    (fun result l => if listenerMatches l fn = true then result else result ++ [l])
    []

/-- Mirrors removeAllListeners. -/
def removeAllListeners (_ls : List SpringListener) : List SpringListener := []

/-- Spring-time accumulated by a tick arriving at the given timestamp. -/
noncomputable def newSpringTime (s : SpringState) (timestamp : ℝ) : ℝ :=
  s.springTime + clampDelta (timestamp - s.currentTime)

/-- State after the solver part of a successful tick: spring-time
accumulated, wall clock updated, value and velocity from the solver. -/
noncomputable def tickState (s : SpringState) (timestamp : ℝ) : SpringState :=
  { s with springTime := newSpringTime s timestamp
           currentTime := timestamp
           currentValue := springOscillation s.config (newSpringTime s timestamp)
           currentVelocity := springVelocity s.config (newSpringTime s timestamp) }

/-- A tick on a non-animating spring is a pure no-op. -/
theorem advance_not_animating (s : SpringState) (ts : ℝ) (b : Bool)
    (h : s.isAnimating = false) : advanceSpringToTime s ts b = (s, none, []) := by
  unfold advanceSpringToTime
  rw [if_pos h]

/-- Canonical form of stop on an animating spring. -/
theorem stop_eq (s : SpringState) (hA : s.isAnimating = true) :
    stop s = ({ s with isAnimating := false, currentAnimationStep := 0 },
      [SpringEvent.stop]) := by
  unfold stop
  rw [if_neg (by simp [hA])]
  dsimp only
  split
  · rfl
  · rename_i h
    push_neg at h
    cases s
    simp_all

/-- Stop on a non-animating spring is a no-op. -/
theorem stop_not_animating (s : SpringState) (h : s.isAnimating = false) :
    stop s = (s, []) := by
  unfold stop
  rw [if_pos h]

/-- Canonical form of a successful tick evaluation (animating spring, valid
physical parameters): the solver state, then the termination policy when
notifying. -/
theorem advance_eq (s : SpringState) (ts : ℝ) (b : Bool)
    (hA : s.isAnimating = true) (hm : 0 < s.config.mass)
    (hk : 0 < s.config.stiffness) (hc : 0 < s.config.damping) :
    advanceSpringToTime s ts b =
      if b = false then (tickState s ts, none, [])
      else
        ((tickResult (tickState s ts) s.config.stiffness
            (springOscillation s.config (newSpringTime s ts))
            (springVelocity s.config (newSpringTime s ts))).1, none,
          (tickResult (tickState s ts) s.config.stiffness
            (springOscillation s.config (newSpringTime s ts))
            (springVelocity s.config (newSpringTime s ts))).2) := by
  unfold advanceSpringToTime
  rw [if_neg (by simp [hA])]
  dsimp only
  rw [if_neg (not_not_intro hm), if_neg (not_not_intro hk), if_neg (not_not_intro hc)]
  rfl

/-- Canonical form of a tick evaluation that violates an invariant: the
spring-time mutation has already happened, the error names the first
violated invariant, nothing else changed and nothing was dispatched. -/
theorem advance_eq_error (s : SpringState) (ts : ℝ) (b : Bool)
    (hA : s.isAnimating = true)
    (hbad : ¬(0 < s.config.mass ∧ 0 < s.config.stiffness ∧ 0 < s.config.damping)) :
    advanceSpringToTime s ts b =
      ({ s with springTime := newSpringTime s ts },
        some (if ¬0 < s.config.mass then SpringError.invalidMass
          else if ¬0 < s.config.stiffness then SpringError.invalidStiffness
          else SpringError.invalidDamping), []) := by
  unfold advanceSpringToTime
  rw [if_neg (by simp [hA])]
  dsimp only
  by_cases hm : 0 < s.config.mass
  · by_cases hk : 0 < s.config.stiffness
    · by_cases hc : 0 < s.config.damping
      · exact absurd ⟨hm, hk, hc⟩ hbad
      · rw [if_neg (not_not_intro hm), if_neg (not_not_intro hk), if_pos hc,
          if_neg (not_not_intro hm), if_neg (not_not_intro hk)]
        rfl
    · rw [if_neg (not_not_intro hm), if_pos hk, if_neg (not_not_intro hm), if_pos hk]
      rfl
  · rw [if_pos hm, if_pos hm]
    rfl

/-- Stop never changes the accumulated spring-time. -/
theorem stop_fst_springTime (s : SpringState) : (stop s).1.springTime = s.springTime := by
  unfold stop
  split
  · rfl
  · dsimp only
    split <;> rfl

/-- Stop never changes the recorded wall-clock time. -/
theorem stop_fst_currentTime (s : SpringState) :
    (stop s).1.currentTime = s.currentTime := by
  unfold stop
  split
  · rfl
  · dsimp only
    split <;> rfl

/-- Stop never changes the configuration. -/
theorem stop_fst_config (s : SpringState) : (stop s).1.config = s.config := by
  unfold stop
  split
  · rfl
  · dsimp only
    split <;> rfl

/-- The termination tail never changes the accumulated spring-time. -/
theorem tickResult_springTime (s2 : SpringState) (kk o v : ℝ) :
    (tickResult s2 kk o v).1.springTime = s2.springTime := by
  unfold tickResult
  split
  · split
    · dsimp only
      rw [stop_fst_springTime]
    · dsimp only
      rw [stop_fst_springTime]
  · rfl

/-- The termination tail never changes the configuration. -/
theorem tickResult_config (s2 : SpringState) (kk o v : ℝ) :
    (tickResult s2 kk o v).1.config = s2.config := by
  unfold tickResult
  split
  · split
    · dsimp only
      rw [stop_fst_config]
    · dsimp only
      rw [stop_fst_config]
  · rfl

/-- A tick on an animating spring always accumulates the clamped delta into
springTime, whether or not the invariants hold and whether or not it
terminates the run. -/
theorem advance_springTime (s : SpringState) (ts : ℝ) (b : Bool)
    (hA : s.isAnimating = true) :
    (advanceSpringToTime s ts b).1.springTime =
      s.springTime + clampDelta (ts - s.currentTime) := by
  by_cases hv : 0 < s.config.mass ∧ 0 < s.config.stiffness ∧ 0 < s.config.damping
  · rw [advance_eq s ts b hA hv.1 hv.2.1 hv.2.2]
    cases b
    · rfl
    · rw [if_neg (by simp)]
      dsimp only
      rw [tickResult_springTime]
      rfl
  · rw [advance_eq_error s ts b hA hv]
    rfl

/-- A tick never changes the configuration. -/
theorem advance_config (s : SpringState) (ts : ℝ) (b : Bool) :
    (advanceSpringToTime s ts b).1.config = s.config := by
  by_cases hA : s.isAnimating = true
  · by_cases hv : 0 < s.config.mass ∧ 0 < s.config.stiffness ∧ 0 < s.config.damping
    · rw [advance_eq s ts b hA hv.1 hv.2.1 hv.2.2]
      cases b
      · rfl
      · rw [if_neg (by simp)]
        dsimp only
        rw [tickResult_config]
        rfl
    · rw [advance_eq_error s ts b hA hv]
  · rw [advance_not_animating s ts b (by simpa using hA)]

/-- A silent advance (shouldNotifyListeners = false) dispatches nothing. -/
theorem advance_silent (s : SpringState) (ts : ℝ) :
    (advanceSpringToTime s ts false).2.2 = [] := by
  by_cases hA : s.isAnimating = true
  · by_cases hv : 0 < s.config.mass ∧ 0 < s.config.stiffness ∧ 0 < s.config.damping
    · rw [advance_eq s ts false hA hv.1 hv.2.1 hv.2.2]
      rfl
    · rw [advance_eq_error s ts false hA hv]
  · rw [advance_not_animating s ts false (by simpa using hA)]

/-- Case analysis of a notifying tick with valid parameters: either the
spring stays animating, with exactly one onUpdate dispatch carrying the
solver output, or it terminates: the state is snapped to (toValue, 0), the
handle is cancelled, and the trace is onUpdate (solver output), onUpdate
(snapped values), onStop. -/
theorem advance_cases (s : SpringState) (ts : ℝ)
    (hA : s.isAnimating = true) (hm : 0 < s.config.mass)
    (hk : 0 < s.config.stiffness) (hc : 0 < s.config.damping) :
    advanceSpringToTime s ts true = (tickState s ts, none,
        [SpringEvent.update (springOscillation s.config (newSpringTime s ts))
           (springVelocity s.config (newSpringTime s ts))]) ∨
      advanceSpringToTime s ts true =
        ({ tickState s ts with currentValue := s.config.toValue
                               currentVelocity := 0
                               isAnimating := false
                               currentAnimationStep := 0 }, none,
          [SpringEvent.update (springOscillation s.config (newSpringTime s ts))
             (springVelocity s.config (newSpringTime s ts)),
           SpringEvent.update s.config.toValue 0, SpringEvent.stop]) := by
  rw [advance_eq s ts true hA hm hk hc, if_neg (by simp)]
  unfold tickResult
  by_cases hterm : isSpringOvershooting (tickState s ts) ∨ isSpringAtRest (tickState s ts)
  · rw [if_pos hterm, if_pos (ne_of_gt hk)]
    dsimp only
    rw [stop_eq _ (by exact hA)]
    right
    rfl
  · rw [if_neg hterm]
    left
    rfl

/-- A terminating notifying tick with valid parameters snaps the state and
dispatches the extra onUpdate followed by onStop. -/
theorem advance_terminal_snap (s : SpringState) (ts : ℝ)
    (hA : s.isAnimating = true) (hm : 0 < s.config.mass)
    (hk : 0 < s.config.stiffness) (hc : 0 < s.config.damping)
    (hstop : (advanceSpringToTime s ts true).1.isAnimating = false) :
    (advanceSpringToTime s ts true).1.currentValue = s.config.toValue ∧
      (advanceSpringToTime s ts true).1.currentVelocity = 0 ∧
      (advanceSpringToTime s ts true).2.2 =
        [SpringEvent.update (springOscillation s.config (newSpringTime s ts))
            (springVelocity s.config (newSpringTime s ts)),
          SpringEvent.update s.config.toValue 0, SpringEvent.stop] := by
  rcases advance_cases s ts hA hm hk hc with h | h
  · rw [h] at hstop
    simp only [tickState] at hstop
    rw [hA] at hstop
    exact absurd hstop (by simp)
  · rw [h]
    exact ⟨rfl, rfl, rfl⟩

/-- Ticks on a non-animating spring leave it untouched. -/
theorem runTicks_not_animating (tss : List ℝ) : ∀ s : SpringState,
    s.isAnimating = false → runTicks s tss = some s := by
  induction tss with
  | nil => intro s _; rfl
  | cons ts rest ih =>
    intro s h
    have hstep : step s ts 1 = (s, none, []) := by
      unfold step
      rw [advance_not_animating s ts true h]
      dsimp only
      rw [if_neg (by simp [h])]
    show runTicks s (ts :: rest) = some s
    unfold runTicks
    rw [hstep]
    exact ih s h

/-- Running ticks from an animating, valid spring until it is no longer
animating yields the snapped terminal values. -/
theorem runTicks_terminal (tss : List ℝ) : ∀ s sf : SpringState,
    s.isAnimating = true → 0 < s.config.mass → 0 < s.config.stiffness →
    0 < s.config.damping → runTicks s tss = some sf →
    sf.isAnimating = false →
    sf.currentValue = s.config.toValue ∧ sf.currentVelocity = 0 := by
  induction tss with
  | nil =>
    intro s sf hA _ _ _ hrun hsf
    have hs : s = sf := by simpa [runTicks] using hrun
    rw [← hs] at hsf
    rw [hA] at hsf
    exact absurd hsf (by simp)
  | cons ts rest ih =>
    intro s sf hA hm hk hc hrun hsf
    rcases advance_cases s ts hA hm hk hc with h | h
    · have hstep : step s ts 1 = ({ tickState s ts with currentAnimationStep := 1 },
          none,
          [SpringEvent.update (springOscillation s.config (newSpringTime s ts))
            (springVelocity s.config (newSpringTime s ts))]) := by
        unfold step
        rw [h]
        dsimp only
        rw [if_pos (by exact hA)]
      unfold runTicks at hrun
      rw [hstep] at hrun
      dsimp only at hrun
      exact ih { tickState s ts with currentAnimationStep := 1 } sf (by exact hA)
        (by exact hm) (by exact hk) (by exact hc) hrun hsf
    · have hstep : step s ts 1 = ({ tickState s ts with
          currentValue := s.config.toValue
          currentVelocity := 0
          isAnimating := false
          currentAnimationStep := 0 }, none,
          [SpringEvent.update (springOscillation s.config (newSpringTime s ts))
            (springVelocity s.config (newSpringTime s ts)),
           SpringEvent.update s.config.toValue 0, SpringEvent.stop]) := by
        unfold step
        rw [h]
        dsimp only
        rw [if_neg (by simp)]
      unfold runTicks at hrun
      rw [hstep] at hrun
      dsimp only at hrun
      rw [runTicks_not_animating rest _ rfl] at hrun
      have hsf_eq : ({ tickState s ts with
          currentValue := s.config.toValue
          currentVelocity := 0
          isAnimating := false
          currentAnimationStep := 0 } : SpringState) = sf := by
        exact Option.some.inj hrun
      rw [← hsf_eq]
      exact ⟨rfl, rfl⟩

/-- C3: whenever a notifying tick on an animating spring with valid
parameters (in particular nonzero stiffness) terminates the run, it snaps
currentValue to toValue and currentVelocity to 0 exactly, dispatches one
extra onUpdate with the snapped values followed by onStop; consequently any
sequence of ticks that ends with the spring no longer animating leaves
currentValue = toValue and currentVelocity = 0 exactly. -/
theorem tick_termination_snaps_exactly (s : SpringState)
    (hA : s.isAnimating = true) (hm : 0 < s.config.mass)
    (hk : 0 < s.config.stiffness) (hc : 0 < s.config.damping) :
    (∀ ts, (advanceSpringToTime s ts true).1.isAnimating = false →
      (advanceSpringToTime s ts true).1.currentValue = s.config.toValue ∧
      (advanceSpringToTime s ts true).1.currentVelocity = 0 ∧
      (advanceSpringToTime s ts true).2.2 =
        [SpringEvent.update (springOscillation s.config (newSpringTime s ts))
            (springVelocity s.config (newSpringTime s ts)),
          SpringEvent.update s.config.toValue 0, SpringEvent.stop]) ∧
    (∀ tss sf, runTicks s tss = some sf → sf.isAnimating = false →
      sf.currentValue = s.config.toValue ∧ sf.currentVelocity = 0) :=
  ⟨fun ts hstop => advance_terminal_snap s ts hA hm hk hc hstop,
   fun tss sf hrun hsf => runTicks_terminal tss s sf hA hm hk hc hrun hsf⟩

/-- Witness for C3 on a just-started default spring. -/
theorem tick_termination_snaps_exactly_witness :
    (∀ ts, (advanceSpringToTime { mkSpring {} with isAnimating := true } ts true).1.isAnimating = false →
      (advanceSpringToTime { mkSpring {} with isAnimating := true } ts true).1.currentValue =
        ({ mkSpring {} with isAnimating := true } : SpringState).config.toValue ∧
      (advanceSpringToTime { mkSpring {} with isAnimating := true } ts true).1.currentVelocity = 0 ∧
      (advanceSpringToTime { mkSpring {} with isAnimating := true } ts true).2.2 =
        [SpringEvent.update
            (springOscillation ({ mkSpring {} with isAnimating := true } : SpringState).config
              (newSpringTime { mkSpring {} with isAnimating := true } ts))
            (springVelocity ({ mkSpring {} with isAnimating := true } : SpringState).config
              (newSpringTime { mkSpring {} with isAnimating := true } ts)),
          SpringEvent.update ({ mkSpring {} with isAnimating := true } : SpringState).config.toValue 0,
          SpringEvent.stop]) ∧
    (∀ tss sf, runTicks { mkSpring {} with isAnimating := true } tss = some sf →
      sf.isAnimating = false →
      sf.currentValue = ({ mkSpring {} with isAnimating := true } : SpringState).config.toValue ∧
      sf.currentVelocity = 0) :=
  tick_termination_snaps_exactly { mkSpring {} with isAnimating := true } rfl
    (by norm_num [mkSpring, initialConfig, withDefault])
    (by norm_num [mkSpring, initialConfig, withDefault])
    (by norm_num [mkSpring, initialConfig, withDefault])

/-- C4 (amended): a tick on an animating spring raises exactly when mass,
stiffness or damping is non-positive; on a raise, currentValue,
currentVelocity, lastTickTimestamp, isAnimating and the scheduled handle
are untouched and nothing is dispatched, but springTime has already been
advanced by the clamped delta; a raising step schedules no further tick;
and updateConfig on a non-animating spring never validates (construction
never does either, mkSpring being total). -/
theorem tick_invariant_validation_amended (s : SpringState) (ts : ℝ) (b : Bool)
    (hA : s.isAnimating = true) :
    ((advanceSpringToTime s ts b).2.1.isSome ↔
      ¬(0 < s.config.mass ∧ 0 < s.config.stiffness ∧ 0 < s.config.damping)) ∧
    ((advanceSpringToTime s ts b).2.1.isSome →
      (advanceSpringToTime s ts b).1.currentValue = s.currentValue ∧
      (advanceSpringToTime s ts b).1.currentVelocity = s.currentVelocity ∧
      (advanceSpringToTime s ts b).1.currentTime = s.currentTime ∧
      (advanceSpringToTime s ts b).1.isAnimating = s.isAnimating ∧
      (advanceSpringToTime s ts b).1.currentAnimationStep = s.currentAnimationStep ∧
      (advanceSpringToTime s ts b).1.springTime =
        s.springTime + clampDelta (ts - s.currentTime) ∧
      (advanceSpringToTime s ts b).2.2 = []) ∧
    (∀ hid, (step s ts hid).2.1.isSome →
      (step s ts hid).1.currentAnimationStep = s.currentAnimationStep) ∧
    (∀ s2 : SpringState, ∀ p now, s2.isAnimating = false →
      updateConfig s2 p now =
        (reset { s2 with config := applyPartial { s2.config with
            fromValue := s2.currentValue
            initialVelocity := s2.currentVelocity } p } now, none, [])) := by
  by_cases hv : 0 < s.config.mass ∧ 0 < s.config.stiffness ∧ 0 < s.config.damping
  · have hnone : (advanceSpringToTime s ts b).2.1 = none := by
      rw [advance_eq s ts b hA hv.1 hv.2.1 hv.2.2]
      cases b
      · rfl
      · rw [if_neg (by simp)]
    refine ⟨?_, ?_, ?_, ?_⟩
    · rw [hnone]
      simp [hv]
    · rw [hnone]
      intro h
      exact absurd h (by simp)
    · intro hid h
      have hnone2 : (advanceSpringToTime s ts true).2.1 = none := by
        rw [advance_eq s ts true hA hv.1 hv.2.1 hv.2.2]
        rw [if_neg (by simp)]
      unfold step at h
      rcases hadv : advanceSpringToTime s ts true with ⟨s1, e, evs⟩
      rw [hadv] at h
      rw [hadv] at hnone2
      simp only at hnone2
      rw [hnone2] at h
      dsimp only at h
      by_cases hAn : s1.isAnimating = true
      · rw [if_pos hAn] at h
        exact absurd h (by simp)
      · rw [if_neg hAn] at h
        exact absurd h (by simp)
    · intro s2 p now h2
      unfold updateConfig
      rw [advance_not_animating s2 now false h2]
  · rw [advance_eq_error s ts b hA hv]
    refine ⟨by simp [hv], fun _ => ⟨rfl, rfl, rfl, rfl, rfl, rfl, rfl⟩, ?_, ?_⟩
    · intro hid _
      unfold step
      rw [advance_eq_error s ts true hA hv]
    · intro s2 p now h2
      unfold updateConfig
      rw [advance_not_animating s2 now false h2]

/-- Witness for C4 (amended) at a concrete animating spring. -/
theorem tick_invariant_validation_amended_witness :
    (((advanceSpringToTime { mkSpring {} with isAnimating := true } 5 true).2.1.isSome ↔
      ¬(0 < ({ mkSpring {} with isAnimating := true } : SpringState).config.mass ∧
        0 < ({ mkSpring {} with isAnimating := true } : SpringState).config.stiffness ∧
        0 < ({ mkSpring {} with isAnimating := true } : SpringState).config.damping)) ∧
    ((advanceSpringToTime { mkSpring {} with isAnimating := true } 5 true).2.1.isSome →
      (advanceSpringToTime { mkSpring {} with isAnimating := true } 5 true).1.currentValue =
        ({ mkSpring {} with isAnimating := true } : SpringState).currentValue ∧
      (advanceSpringToTime { mkSpring {} with isAnimating := true } 5 true).1.currentVelocity =
        ({ mkSpring {} with isAnimating := true } : SpringState).currentVelocity ∧
      (advanceSpringToTime { mkSpring {} with isAnimating := true } 5 true).1.currentTime =
        ({ mkSpring {} with isAnimating := true } : SpringState).currentTime ∧
      (advanceSpringToTime { mkSpring {} with isAnimating := true } 5 true).1.isAnimating =
        ({ mkSpring {} with isAnimating := true } : SpringState).isAnimating ∧
      (advanceSpringToTime { mkSpring {} with isAnimating := true } 5 true).1.currentAnimationStep =
        ({ mkSpring {} with isAnimating := true } : SpringState).currentAnimationStep ∧
      (advanceSpringToTime { mkSpring {} with isAnimating := true } 5 true).1.springTime =
        ({ mkSpring {} with isAnimating := true } : SpringState).springTime +
          clampDelta (5 - ({ mkSpring {} with isAnimating := true } : SpringState).currentTime) ∧
      (advanceSpringToTime { mkSpring {} with isAnimating := true } 5 true).2.2 = []) ∧
    (∀ hid, (step { mkSpring {} with isAnimating := true } 5 hid).2.1.isSome →
      (step { mkSpring {} with isAnimating := true } 5 hid).1.currentAnimationStep =
        ({ mkSpring {} with isAnimating := true } : SpringState).currentAnimationStep) ∧
    (∀ s2 : SpringState, ∀ p now, s2.isAnimating = false →
      updateConfig s2 p now =
        (reset { s2 with config := applyPartial { s2.config with
            fromValue := s2.currentValue
            initialVelocity := s2.currentVelocity } p } now, none, []))) :=
  tick_invariant_validation_amended { mkSpring {} with isAnimating := true } 5 true rfl

/-- Animating spring with an invalid (negative) mass used to exhibit the
springTime mutation that precedes the invariant throw. -/
def c4State : SpringState :=
  { mkSpring {} with isAnimating := true
                     config := { initialConfig {} with mass := -1 } }

/-- C4 counterexample: a tick at timestamp 10 on an animating spring with
mass -1 raises InvalidPhysicalParameter, yet springTime has been advanced
from 0 to 10 by the raising call (the mutation precedes the invariant
checks), contradicting the claim that the prior state, including
springTime, is left untouched; moreover updateConfig on this animating
instance also raises, contradicting validation happening only at tick
time. -/
theorem tick_invariant_validation_counterexample :
    (advanceSpringToTime c4State 10 true).2.1 = some SpringError.invalidMass ∧
    (advanceSpringToTime c4State 10 true).1.springTime = 10 ∧
    c4State.springTime = 0 ∧
    (updateConfig c4State {} 10).2.1 = some SpringError.invalidMass := by
  have hA : c4State.isAnimating = true := rfl
  have hbad : ¬(0 < c4State.config.mass ∧ 0 < c4State.config.stiffness ∧
      0 < c4State.config.damping) := by
    norm_num [c4State, mkSpring, initialConfig, withDefault]
  have hm : ¬(0 : ℝ) < c4State.config.mass := by
    norm_num [c4State, mkSpring, initialConfig, withDefault]
  refine ⟨?_, ?_, rfl, ?_⟩
  · rw [advance_eq_error c4State 10 true hA hbad]
    simp [hm]
  · rw [advance_eq_error c4State 10 true hA hbad]
    show newSpringTime c4State 10 = 10
    unfold newSpringTime clampDelta
    norm_num [c4State, mkSpring, MAX_DELTA_TIME_MS]
  · unfold updateConfig
    rw [advance_eq_error c4State 10 false hA hbad]
    simp [hm]

/-- Clamping a delta that is below the ceiling is the identity. -/
theorem clampDelta_of_le (d : ℝ) (h : d ≤ MAX_DELTA_TIME_MS) : clampDelta d = d := by
  unfold clampDelta
  rw [if_neg (not_lt.mpr h)]

/-- Start on a spring that will move resets the simulation fields and seeds
the wall clock with the time of the start call. -/
theorem start_resets (s : SpringState) (now : ℝ) (hid : ℕ)
    (hmov : s.config.fromValue ≠ s.config.toValue ∨ s.config.initialVelocity ≠ 0) :
    (start s now hid).1.springTime = 0 ∧
    (start s now hid).1.currentTime = now ∧
    (start s now hid).1.isAnimating = true ∧
    (start s now hid).1.currentValue = s.config.fromValue ∧
    (start s now hid).1.currentVelocity = s.config.initialVelocity := by
  unfold start
  rw [if_pos hmov]
  dsimp only
  split
  · exact ⟨rfl, rfl, rfl, rfl, rfl⟩
  · exact ⟨rfl, rfl, rfl, rfl, rfl⟩

/-- C6 (amended): the last-tick timestamp is seeded at reset time with the
wall-clock time of the start call, so the first tick of a run computes
deltaTime = its own timestamp minus the reset time; the observed frame
reflects spring-time 0 exactly when the first tick carries the reset
timestamp itself. -/
theorem first_tick_timestamp_seeding_amended (s : SpringState) (now ts : ℝ)
    (hid : ℕ)
    (hmov : s.config.fromValue ≠ s.config.toValue ∨ s.config.initialVelocity ≠ 0)
    (hdt : ts - now ≤ MAX_DELTA_TIME_MS) :
    (start s now hid).1.currentTime = now ∧
    (advanceSpringToTime (start s now hid).1 ts true).1.springTime = ts - now ∧
    (ts = now →
      (advanceSpringToTime (start s now hid).1 ts true).1.springTime = 0) := by
  obtain ⟨h0, hnow, hAn, _, _⟩ := start_resets s now hid hmov
  have hst := advance_springTime (start s now hid).1 ts true hAn
  rw [h0, hnow, clampDelta_of_le _ hdt, zero_add] at hst
  exact ⟨hnow, hst, fun h => by rw [hst, h, sub_self]⟩

/-- Witness for C6 (amended): default spring started and first-ticked at the
same wall time 0. -/
theorem first_tick_timestamp_seeding_amended_witness :
    (start (mkSpring {}) 0 1).1.currentTime = 0 ∧
    (advanceSpringToTime (start (mkSpring {}) 0 1).1 0 true).1.springTime = 0 - 0 ∧
    ((0 : ℝ) = 0 →
      (advanceSpringToTime (start (mkSpring {}) 0 1).1 0 true).1.springTime = 0) :=
  first_tick_timestamp_seeding_amended (mkSpring {}) 0 0 1
    (Or.inl (by norm_num [mkSpring, initialConfig, withDefault]))
    (by norm_num [MAX_DELTA_TIME_MS])

/-- C6 counterexample: a default spring started at wall time 0 whose first
tick arrives at timestamp 16 computes deltaTime 16 and reaches spring-time
16, not 0, refuting that the first tick of a run always observes
deltaTime = 0. -/
theorem first_tick_timestamp_seeding_counterexample :
    (advanceSpringToTime (start (mkSpring {}) 0 1).1 16 true).1.springTime = 16 ∧
    (16 : ℝ) ≠ 0 := by
  constructor
  · obtain ⟨h0, hnow, hAn, _, _⟩ := start_resets (mkSpring {}) 0 1
      (Or.inl (by norm_num [mkSpring, initialConfig, withDefault]))
    have hst := advance_springTime (start (mkSpring {}) 0 1).1 16 true hAn
    rw [h0, hnow, clampDelta_of_le _ (by norm_num [MAX_DELTA_TIME_MS])] at hst
    rw [hst]
    norm_num
  · norm_num

/-- C7 (amended): the overshoot predicate holds only with overshootClamping
set and nonzero stiffness, and then, with fromValue below toValue, exactly
when currentValue exceeds toValue; otherwise — including the equal-endpoint
case, which takes the same else-branch — exactly when currentValue is below
toValue. -/
theorem overshoot_predicate_amended (s : SpringState) :
    (isSpringOvershooting s →
      s.config.overshootClamping = true ∧ s.config.stiffness ≠ 0) ∧
    (s.config.overshootClamping = true → s.config.stiffness ≠ 0 →
      ((s.config.fromValue < s.config.toValue →
        (isSpringOvershooting s ↔ s.currentValue > s.config.toValue)) ∧
       (¬s.config.fromValue < s.config.toValue →
        (isSpringOvershooting s ↔ s.currentValue < s.config.toValue)))) := by
  constructor
  · rintro ⟨h1, h2, _⟩
    exact ⟨h1, h2⟩
  · intro hoc hk
    constructor
    · intro hlt
      unfold isSpringOvershooting
      rw [if_pos hlt]
      exact ⟨fun h => h.2.2, fun h => ⟨hoc, hk, h⟩⟩
    · intro hnlt
      unfold isSpringOvershooting
      rw [if_neg hnlt]
      exact ⟨fun h => h.2.2, fun h => ⟨hoc, hk, h⟩⟩

/-- State used for the C7 counterexample: clamping on, stiffness 1, equal
endpoints 0, current value -1. -/
def c7State : SpringState :=
  { mkSpring {} with
    config := { initialConfig {} with overshootClamping := true
                                      stiffness := 1
                                      fromValue := 0
                                      toValue := 0 }
    currentValue := -1 }

/-- C7 counterexample: with equal endpoints the else-branch of
_isSpringOvershooting still fires when currentValue is below toValue, so
overshoot is NOT impossible for fromValue = toValue. -/
theorem overshoot_predicate_counterexample :
    c7State.config.fromValue = c7State.config.toValue ∧
      isSpringOvershooting c7State := by
  refine ⟨rfl, rfl, by norm_num [c7State, mkSpring, initialConfig, withDefault], ?_⟩
  show if (0 : ℝ) < 0 then (-1 : ℝ) > 0 else (-1 : ℝ) < 0
  rw [if_neg (lt_irrefl (0 : ℝ))]
  norm_num

/-- C8 (amended): start on an animating spring with a scheduled tick never
re-fires onStart and never re-schedules, but unless the configuration is
the degenerate no-op one (fromValue = toValue and zero initial velocity) it
DOES reset state: springTime to 0, currentValue to fromValue,
currentVelocity to initialVelocity and the last tick timestamp to the call
time. -/
theorem start_while_scheduled_amended (s : SpringState) (now : ℝ) (hid : ℕ)
    (hA : s.isAnimating = true) (hsch : s.currentAnimationStep ≠ 0) :
    (start s now hid).2 = [] ∧
    (start s now hid).1.currentAnimationStep = s.currentAnimationStep ∧
    (start s now hid).1.isAnimating = true ∧
    ((s.config.fromValue ≠ s.config.toValue ∨ s.config.initialVelocity ≠ 0) →
      (start s now hid).1 = { reset s now with isAnimating := true }) ∧
    (¬(s.config.fromValue ≠ s.config.toValue ∨ s.config.initialVelocity ≠ 0) →
      (start s now hid).1 = s) := by
  by_cases hmov : s.config.fromValue ≠ s.config.toValue ∨ s.config.initialVelocity ≠ 0
  · unfold start
    rw [if_pos hmov]
    dsimp only
    rw [if_neg (by exact hsch)]
    exact ⟨rfl, rfl, rfl, fun _ => rfl, fun h => absurd hmov h⟩
  · unfold start
    rw [if_neg hmov]
    exact ⟨rfl, rfl, hA, fun h => absurd h hmov, fun _ => rfl⟩

/-- Mid-flight animating state used for the C8 counterexample. -/
def c8State : SpringState :=
  { mkSpring {} with isAnimating := true
                     currentAnimationStep := 5
                     currentTime := 50
                     springTime := 100
                     currentValue := 0.5
                     currentVelocity := 0.01 }

/-- C8 counterexample: start on an animating spring with a scheduled tick
does not fire onStart, yet resets springTime from 100 to 0 — the call is
not a state-preserving no-op. -/
theorem start_while_scheduled_counterexample :
    (start c8State 200 7).2 = [] ∧
    (start c8State 200 7).1.springTime = 0 ∧
    c8State.springTime = 100 := by
  have hmov : c8State.config.fromValue ≠ c8State.config.toValue ∨
      c8State.config.initialVelocity ≠ 0 :=
    Or.inl (by norm_num [c8State, mkSpring, initialConfig, withDefault])
  unfold start
  rw [if_pos hmov]
  dsimp only
  rw [if_neg (by norm_num [reset, c8State, mkSpring])]
  exact ⟨rfl, rfl, rfl⟩

/-- Witness for C8 (amended) at the mid-flight state. -/
theorem start_while_scheduled_amended_witness :
    (start c8State 200 7).2 = [] ∧
    (start c8State 200 7).1.currentAnimationStep = c8State.currentAnimationStep ∧
    (start c8State 200 7).1.isAnimating = true ∧
    ((c8State.config.fromValue ≠ c8State.config.toValue ∨
        c8State.config.initialVelocity ≠ 0) →
      (start c8State 200 7).1 = { reset c8State 200 with isAnimating := true }) ∧
    (¬(c8State.config.fromValue ≠ c8State.config.toValue ∨
        c8State.config.initialVelocity ≠ 0) →
      (start c8State 200 7).1 = c8State) :=
  start_while_scheduled_amended c8State 200 7 rfl
    (by norm_num [c8State, mkSpring])

/-- C9 (amended): zero stiffness is rejected at tick time by the
stiffness-positivity invariant like any non-positive stiffness (so a
zero-stiffness spring cannot tick at all, rather than ticking
indefinitely); independently, the stiffness-nonzero guards do make both the
overshoot predicate and rest detection false at zero stiffness. -/
theorem zero_stiffness_amended (s : SpringState) (hk0 : s.config.stiffness = 0) :
    (s.isAnimating = true → ∀ ts b, (advanceSpringToTime s ts b).2.1.isSome) ∧
    ¬isSpringOvershooting s ∧ ¬isSpringAtRest s := by
  refine ⟨?_, ?_, ?_⟩
  · intro hA ts b
    have hbad : ¬(0 < s.config.mass ∧ 0 < s.config.stiffness ∧
        0 < s.config.damping) := by
      rw [hk0]
      rintro ⟨_, h, _⟩
      exact lt_irrefl 0 h
    rw [advance_eq_error s ts b hA hbad]
    simp
  · rintro ⟨_, h2, _⟩
    exact h2 hk0
  · rintro ⟨⟨h1, _⟩, _⟩
    exact h1 hk0

/-- Animating zero-stiffness state used for C9. -/
def c9State : SpringState :=
  { mkSpring {} with isAnimating := true
                     config := { initialConfig {} with stiffness := 0 } }

/-- Witness for C9 (amended) at the zero-stiffness state. -/
theorem zero_stiffness_amended_witness :
    (c9State.isAnimating = true →
      ∀ ts b, (advanceSpringToTime c9State ts b).2.1.isSome) ∧
    ¬isSpringOvershooting c9State ∧ ¬isSpringAtRest c9State :=
  zero_stiffness_amended c9State rfl

/-- C9 counterexample: a tick on an animating spring whose stiffness is 0
raises InvalidPhysicalParameter (the stiffness invariant), refuting that
zero stiffness is handled without raising and ticks indefinitely. -/
theorem zero_stiffness_counterexample :
    (advanceSpringToTime c9State 1 true).2.1 = some SpringError.invalidStiffness := by
  have hA : c9State.isAnimating = true := rfl
  have hbad : ¬(0 < c9State.config.mass ∧ 0 < c9State.config.stiffness ∧
      0 < c9State.config.damping) := by
    norm_num [c9State, mkSpring, initialConfig, withDefault]
  rw [advance_eq_error c9State 1 true hA hbad]
  norm_num [c9State, mkSpring, initialConfig, withDefault]

/-- Reduction of the removeListener accumulator to a filter keeping exactly
the non-matching entries. -/
theorem removeListener_eq_filter (ls : List SpringListener) (fn : ℕ) :
    removeListener ls fn = ls.filter fun l => !listenerMatches l fn := by
  unfold removeListener
  suffices h : ∀ acc : List SpringListener,
      ls.foldl (fun result l =>
        if listenerMatches l fn = true then result else result ++ [l]) acc =
        acc ++ ls.filter (fun l => !listenerMatches l fn) by
    simpa using h []
  induction ls with
  | nil => intro acc; simp
  | cons l rest ih =>
    intro acc
    by_cases h : listenerMatches l fn = true
    · simp [List.foldl_cons, h, ih, List.filter_cons]
    · simp [List.foldl_cons, h, ih, List.filter_cons]

/-- C10 (amended): removeListener removes EVERY registered entry wrapping
the callback, under any event kind — in particular the first — keeping
exactly the entries that do not wrap it, in registration order;
removeAllListeners empties the registry regardless of kind. -/
theorem remove_listener_amended (ls : List SpringListener) (fn : ℕ) :
    removeListener ls fn = (ls.filter fun l => !listenerMatches l fn) ∧
      removeAllListeners ls = [] :=
  ⟨removeListener_eq_filter ls fn, rfl⟩

/-- C10 counterexample: a registry holding an onUpdate entry and an onStart
entry that wrap the same callback 7 is emptied by removeListener — the
second entry is removed too, refuting that exactly the first matching entry
is removed and other entries wrapping the same callback stay. -/
theorem remove_listener_counterexample :
    removeListener [{ onUpdate := some 7 }, { onStart := some 7 }] 7 = [] ∧
      removeListener [{ onUpdate := some 7 }, { onStart := some 7 }] 7 ≠
        [{ onStart := some 7 }] := by
  constructor
  · decide
  · decide

/-- A silent advance preserves the scheduled handle and the animating
flag. -/
theorem advance_false_proj (s : SpringState) (now : ℝ) :
    (advanceSpringToTime s now false).1.currentAnimationStep =
      s.currentAnimationStep ∧
    (advanceSpringToTime s now false).1.isAnimating = s.isAnimating := by
  by_cases hA : s.isAnimating = true
  · by_cases hv : 0 < s.config.mass ∧ 0 < s.config.stiffness ∧ 0 < s.config.damping
    · rw [advance_eq s now false hA hv.1 hv.2.1 hv.2.2]
      exact ⟨rfl, rfl⟩
    · rw [advance_eq_error s now false hA hv]
      exact ⟨rfl, rfl⟩
  · rw [advance_not_animating s now false (by simpa using hA)]
    exact ⟨rfl, rfl⟩

/-- updateConfig dispatches nothing and touches neither the scheduled
handle nor the animating flag. -/
theorem updateConfig_silent (s : SpringState) (p : PartialSpringConfig)
    (now : ℝ) :
    (updateConfig s p now).2.2 = [] ∧
    (updateConfig s p now).1.currentAnimationStep = s.currentAnimationStep ∧
    (updateConfig s p now).1.isAnimating = s.isAnimating := by
  have hproj := advance_false_proj s now
  have hsil := advance_silent s now
  unfold updateConfig
  rcases hadv : advanceSpringToTime s now false with ⟨s1, e, evs⟩
  rw [hadv] at hproj hsil
  simp only at hproj hsil
  cases e
  · dsimp only
    exact ⟨rfl, hproj.1, hproj.2⟩
  · dsimp only
    exact ⟨hsil, hproj.1, hproj.2⟩

/-- A batch of updateConfig calls dispatches nothing and preserves the
animating flag and the scheduled handle. -/
theorem applyConfigs_silent (ps : List PartialSpringConfig) :
    ∀ (s : SpringState) (now : ℝ) (sf : SpringState) (evs : List SpringEvent),
      applyConfigs s ps now = some (sf, evs) →
      evs = [] ∧ sf.isAnimating = s.isAnimating ∧
        sf.currentAnimationStep = s.currentAnimationStep := by
  induction ps with
  | nil =>
    intro s now sf evs happ
    have h : (s, ([] : List SpringEvent)) = (sf, evs) := by
      simpa [applyConfigs] using happ
    obtain ⟨h1, h2⟩ := Prod.mk.injEq .. ▸ h
    exact ⟨h2.symm ▸ rfl, by rw [← h1], by rw [← h1]⟩
  | cons p rest ih =>
    intro s now sf evs happ
    have hu := updateConfig_silent s p now
    unfold applyConfigs at happ
    rcases hupd : updateConfig s p now with ⟨s1, e, evs1⟩
    rw [hupd] at happ hu
    simp only at hu
    cases e
    · dsimp only at happ
      rcases hrec : applyConfigs s1 rest now with _ | ⟨sf2, evs2⟩
      · rw [hrec] at happ
        exact absurd happ (by simp)
      · rw [hrec] at happ
        dsimp only at happ
        obtain ⟨hsf, hevs⟩ := Prod.mk.injEq .. ▸ Option.some.inj happ
        obtain ⟨h2, h3, h4⟩ := ih s1 now sf2 evs2 hrec
        refine ⟨?_, ?_, ?_⟩
        · rw [← hevs, hu.1, h2]
          rfl
        · rw [← hsf, h3, hu.2.2]
        · rw [← hsf, h4, hu.2.1]
    · dsimp only at happ
      exact absurd happ (by simp)

/-- Counting update dispatches after a notifying tick on an animating,
valid spring: one when the spring stays animating, two (the solver frame
plus the snap frame) when the tick terminates the run. -/
theorem step_notification_count (s : SpringState) (ts : ℝ) (hid : ℕ)
    (hA : s.isAnimating = true) (hm : 0 < s.config.mass)
    (hk : 0 < s.config.stiffness) (hc : 0 < s.config.damping) :
    (step s ts hid).2.1 = none ∧
    countUpdates (step s ts hid).2.2 =
      (if (step s ts hid).1.isAnimating = true then 1 else 2) := by
  rcases advance_cases s ts hA hm hk hc with h | h
  · have hstep : step s ts hid = ({ tickState s ts with currentAnimationStep := hid },
        none,
        [SpringEvent.update (springOscillation s.config (newSpringTime s ts))
          (springVelocity s.config (newSpringTime s ts))]) := by
      unfold step
      rw [h]
      dsimp only
      rw [if_pos (by exact hA)]
    rw [hstep]
    refine ⟨rfl, ?_⟩
    rw [if_pos (by exact hA)]
    rfl
  · have hstep : step s ts hid = ({ tickState s ts with
        currentValue := s.config.toValue
        currentVelocity := 0
        isAnimating := false
        currentAnimationStep := 0 }, none,
        [SpringEvent.update (springOscillation s.config (newSpringTime s ts))
          (springVelocity s.config (newSpringTime s ts)),
         SpringEvent.update s.config.toValue 0, SpringEvent.stop]) := by
      unfold step
      rw [h]
      dsimp only
      rw [if_neg (by simp)]
    rw [hstep]
    refine ⟨rfl, ?_⟩
    rw [if_neg (by simp)]
    rfl

/-- C5: updateConfig fires no listener and schedules nothing; when
animating with valid parameters it silently advances the trajectory,
re-baselines fromValue and initialVelocity from the advanced value and
velocity, overlays the supplied fields and resets spring-time; and after
any error-free batch of updateConfig calls between two ticks (which
dispatches nothing at all), the next tick dispatches exactly one onUpdate,
plus exactly one extra snap dispatch when that tick terminates the run. -/
theorem batched_updates_single_notification (s : SpringState)
    (ps : List PartialSpringConfig) (now ts : ℝ) (hid : ℕ)
    (sf : SpringState) (evs0 : List SpringEvent)
    (hA : s.isAnimating = true)
    (happ : applyConfigs s ps now = some (sf, evs0))
    (hm : 0 < sf.config.mass) (hk : 0 < sf.config.stiffness)
    (hc : 0 < sf.config.damping) :
    evs0 = [] ∧
    (∀ (p : PartialSpringConfig) (t2 : ℝ), (updateConfig s p t2).2.2 = [] ∧
      (updateConfig s p t2).1.currentAnimationStep = s.currentAnimationStep) ∧
    (∀ (p : PartialSpringConfig) (t2 : ℝ),
      0 < s.config.mass → 0 < s.config.stiffness → 0 < s.config.damping →
      updateConfig s p t2 =
        (reset { tickState s t2 with config := applyPartial { s.config with
            fromValue := springOscillation s.config (newSpringTime s t2)
            initialVelocity := springVelocity s.config (newSpringTime s t2) } p }
          t2, none, [])) ∧
    (step sf ts hid).2.1 = none ∧
    countUpdates (step sf ts hid).2.2 =
      (if (step sf ts hid).1.isAnimating = true then 1 else 2) := by
  obtain ⟨he, hAn, _⟩ := applyConfigs_silent ps s now sf evs0 happ
  have hAf : sf.isAnimating = true := by rw [hAn, hA]
  obtain ⟨h1, h2⟩ := step_notification_count sf ts hid hAf hm hk hc
  refine ⟨he, ?_, ?_, h1, h2⟩
  · intro p t2
    exact ⟨(updateConfig_silent s p t2).1, (updateConfig_silent s p t2).2.1⟩
  · intro p t2 hm2 hk2 hc2
    unfold updateConfig
    rw [advance_eq s t2 false hA hm2 hk2 hc2, if_pos rfl]
    rfl

/-- Witness for C5 on a started default spring with an empty batch. -/
theorem batched_updates_single_notification_witness :
    ([] : List SpringEvent) = [] ∧
    (∀ (p : PartialSpringConfig) (t2 : ℝ),
      (updateConfig { mkSpring {} with isAnimating := true } p t2).2.2 = [] ∧
      (updateConfig { mkSpring {} with isAnimating := true } p t2).1.currentAnimationStep =
        ({ mkSpring {} with isAnimating := true } : SpringState).currentAnimationStep) ∧
    (∀ (p : PartialSpringConfig) (t2 : ℝ),
      0 < ({ mkSpring {} with isAnimating := true } : SpringState).config.mass →
      0 < ({ mkSpring {} with isAnimating := true } : SpringState).config.stiffness →
      0 < ({ mkSpring {} with isAnimating := true } : SpringState).config.damping →
      updateConfig { mkSpring {} with isAnimating := true } p t2 =
        (reset { tickState { mkSpring {} with isAnimating := true } t2 with
            config := applyPartial
              { ({ mkSpring {} with isAnimating := true } : SpringState).config with
                fromValue := springOscillation
                  ({ mkSpring {} with isAnimating := true } : SpringState).config
                  (newSpringTime { mkSpring {} with isAnimating := true } t2)
                initialVelocity := springVelocity
                  ({ mkSpring {} with isAnimating := true } : SpringState).config
                  (newSpringTime { mkSpring {} with isAnimating := true } t2) } p }
          t2, none, [])) ∧
    (step { mkSpring {} with isAnimating := true } 0 2).2.1 = none ∧
    countUpdates (step { mkSpring {} with isAnimating := true } 0 2).2.2 =
      (if (step { mkSpring {} with isAnimating := true } 0 2).1.isAnimating = true
       then 1 else 2) :=
  batched_updates_single_notification { mkSpring {} with isAnimating := true }
    [] 0 0 2 { mkSpring {} with isAnimating := true } [] rfl rfl
    (by norm_num [mkSpring, initialConfig, withDefault])
    (by norm_num [mkSpring, initialConfig, withDefault])
    (by norm_num [mkSpring, initialConfig, withDefault])

end Wobble
